import Mathlib

/-!
Shallow embedding of `src/rgb_recorder/recording/zed_multiprocessing.py`:
the shared-memory channel layout, the `ZedPublisher.run` loop body, the
`ZedReceiver` operations, attach/detach, and the segment-cleanup routine.

Machine floats (`np.float64` timestamps, fps, intrinsics) are modelled as
rationals; `uint8` pixel data as flat lists of naturals; the native-width
signed `read_lock` counter as an integer.  The wall clock (`time.time()`)
is an external input, passed in explicitly at each call site where the
source reads it.
-/

namespace RgbdRecorder

/-- The eight shared-memory segment names derived from a namespace string,
in the order the source declares and opens them
(`{namespace}_{field}`, fields `rgb_left`, `rgb_right`, `rgb_shape`,
`timestamp`, `intrinsics`, `fps`, `write_lock`, `read_lock`). -/
def segmentNames (ns : String) : List String :=
  [ns ++ "_rgb_left", ns ++ "_rgb_right", ns ++ "_rgb_shape",
   ns ++ "_timestamp", ns ++ "_intrinsics", ns ++ "_fps",
   ns ++ "_write_lock", ns ++ "_read_lock"]

/-- The shared segments of one channel: the values held by the eight
shared-memory blocks backing one camera feed. -/
structure Channel where
  rgbLeft : List Nat
  rgbRight : List Nat
  rgbShape : List Int
  timestamp : Rat
  intrinsics : List Rat
  fps : Rat
  writeLock : Bool
  readLock : Int
deriving DecidableEq, Repr

/-- `ZedPublisher._setup`: both pixel segments are initialised from the one
sample capture `rgb`, the shape descriptor from `np.array(rgb.shape)`, the
timestamp from `time.time()` at creation (`t0`), intrinsics and fps from the
camera, `write_lock` to `False` and `read_lock` to `0`. -/
def createChannel (sample : List Nat) (shape : List Int) (intr : List Rat)
    (fps t0 : Rat) : Channel :=
  { rgbLeft := sample
    rgbRight := sample
    rgbShape := shape
    timestamp := t0
    intrinsics := intr
    fps := fps
    writeLock := false
    readLock := 0 }

/-- The write-admission condition of `ZedPublisher.run`, line 185:
`while self.read_lock_shm_array[0] > 0 and self.write_lock_shm_array[0]`.
The writer keeps spinning exactly while this returns `true`. -/
def writerMustWait (c : Channel) : Bool :=
  decide (0 < c.readLock) && c.writeLock

/-- One iteration's external inputs: the two retrieved images and the value
`time.time()` returns at line 191. -/
structure FrameInput where
  left : List Nat
  right : List Nat
  clock : Rat
deriving DecidableEq, Repr

/-- The successive channel states produced by the write section of one
publisher iteration (lines 187-192), in program order: set `write_lock`,
copy the left buffer, copy the right buffer, write the timestamp, clear
`write_lock`. -/
def publishStates (c : Channel) (inp : FrameInput) : List Channel :=
  let c1 := { c with writeLock := true }
  let c2 := { c1 with rgbLeft := inp.left }
  let c3 := { c2 with rgbRight := inp.right }
  let c4 := { c3 with timestamp := inp.clock }
  let c5 := { c4 with writeLock := false }
  [c1, c2, c3, c4, c5]

/-- The channel state at the end of one publisher iteration's write section:
the last of `publishStates`. -/
def publishIter (c : Channel) (inp : FrameInput) : Channel :=
  (publishStates c inp).getLastD c

/-- One full guarded iteration: the body runs only once the admission
spin-wait of line 185 lets the writer through; with no interference the
spin never terminates when the condition holds, modelled as `none`. -/
def publishIterG (c : Channel) (inp : FrameInput) : Option Channel :=
  if writerMustWait c then none else some (publishIter c inp)

/-- The publisher loop of `ZedPublisher.run` over a finite input schedule:
each iteration publishes one frame pair and records the value written to
the timestamp segment at line 191. -/
def runLoop (c : Channel) : List FrameInput → Option (Channel × List Rat)
  | [] => some (c, [])
  | inp :: rest =>
    match publishIterG c inp with
    | none => none
    | some c2 =>
      match runLoop c2 rest with
      | none => none
      | some (cf, ts) => some (cf, c2.timestamp :: ts)

/-- The receiver-local state of a `ZedReceiver`: the two preallocated
private buffer arrays (lines 326-327), the freshness baseline
`previous_timestamp` (line 329), the fps copied at attach (line 318), and
whether the local handles are still open. -/
structure Receiver where
  leftBuffer : List Nat
  rightBuffer : List Nat
  previousTimestamp : Rat
  fps : Rat
  attached : Bool
deriving DecidableEq, Repr

/-- `ZedReceiver.__init__` after the segments are opened: buffers are
preallocated with the channel's fixed shape (`np.ndarray(rgb_shape, ...)`
leaves their contents unspecified, modelled as zeros), and
`previous_timestamp` is set to `time.time()` at attach — the receiver's
own wall clock `t0`, not the channel's current timestamp segment. -/
def attachReceiver (c : Channel) (t0 : Rat) : Receiver :=
  { leftBuffer := List.replicate c.rgbLeft.length 0
    rightBuffer := List.replicate c.rgbRight.length 0
    previousTimestamp := t0
    fps := c.fps
    attached := true }

/-- `ZedReceiver._retrieve_rgb_image_as_int` (lines 361-369): spin while
`write_lock` is set (with no interference a set flag means the call never
completes, modelled as `none`); then increment `read_lock`, copy both
pixel segments into the preallocated private buffers, decrement
`read_lock`, and return.  The Python function returns
`self.rgb_left_buffer_array, self.rgb_right_buffer_array` — the receiver's
own buffer objects, not fresh copies. -/
def retrieve (r : Receiver) (c : Channel) : Option (Receiver × Channel) :=
  if c.writeLock then none
  else
    let c1 := { c with readLock := c.readLock + 1 }
    let r2 := { r with leftBuffer := c1.rgbLeft, rightBuffer := c1.rgbRight }
    let c2 := { c1 with readLock := c1.readLock - 1 }
    some (r2, c2)

/-- The successive channel states written by one completed
`_retrieve_rgb_image_as_int` call: after the `read_lock` increment (the
copies run in this state) and after the decrement. -/
def retrieveChannelStates (_r : Receiver) (c : Channel) : List Channel :=
  if c.writeLock then []
  else
    let c1 := { c with readLock := c.readLock + 1 }
    [c1, { c1 with readLock := c1.readLock - 1 }]

/-- The current contents of the value `_retrieve_rgb_image_as_int`
returns.  Because the source returns the preallocated buffer arrays
themselves (line 369), the returned snapshot aliases the receiver's
buffers: its contents at any later time are the receiver's buffer fields
at that time. -/
def snapshot (r : Receiver) : List Nat × List Nat :=
  (r.leftBuffer, r.rightBuffer)

/-- `ZedReceiver._grab_images` (lines 345-351), the wait-for-next-frame
poll: spin until the channel timestamp strictly exceeds
`previous_timestamp`, then record the observed value.  With the channel
state fixed the call completes iff the strict comparison already holds;
it reads shared memory and writes nothing to it, so the channel is passed
through unchanged. -/
def grabImages (r : Receiver) (c : Channel) : Option (Receiver × Channel) :=
  if r.previousTimestamp < c.timestamp then
    some ({ r with previousTimestamp := c.timestamp }, c)
  else none

/-- `ZedReceiver.get_current_timestamp`: unguarded read of the timestamp
segment. -/
def getCurrentTimestamp (c : Channel) : Rat := c.timestamp

/-- `ZedReceiver.intrinsics_matrix`: returns the shared-memory-backed
intrinsics array, an unguarded read. -/
def intrinsicsMatrix (c : Channel) : List Rat := c.intrinsics

/-- `ZedReceiver.resolution`: reads the first two entries of the shape
segment and returns `(width, height)`. -/
def resolution (c : Channel) : Option (Int × Int) :=
  match c.rgbShape with
  | h :: w :: _ => some (w, h)
  | _ => none

/-- `ZedReceiver._close_shared_memory`: closes the local handles only; it
never unlinks and never writes any segment. -/
def closeSharedMemory (r : Receiver) (c : Channel) : Receiver × Channel :=
  ({ r with attached := false }, c)

/-- Attach failure taxonomy: opening a missing segment raises
(`FileNotFoundError` in the source, `ChannelNotFound` in the spec). -/
inductive AttachError where
  | channelNotFound
deriving DecidableEq, Repr

/-- `shared_memory.SharedMemory(name=...)` against an environment mapping
segment names to existence: succeeds iff the segment exists, otherwise
raises.  The name is looked up exactly once; there is no retry. -/
def openSegment (env : String → Bool) (n : String) : Except AttachError Unit :=
  if env n then Except.ok () else Except.error AttachError.channelNotFound

/-- Open a list of segments in order, stopping at the first failure — the
eight sequential `SharedMemory` constructor calls of
`ZedReceiver.__init__` (lines 280-287).  No open is ever retried. -/
def openAll (env : String → Bool) : List String → Except AttachError Unit
  | [] => Except.ok ()
  | n :: rest =>
    match openSegment env n with
    | Except.ok _ => openAll env rest
    | Except.error e => Except.error e

/-- The attach step of `ZedReceiver.__init__`: open the eight named
segments of the namespace, in source order. -/
def attachSegments (env : String → Bool) (ns : String) : Except AttachError Unit :=
  openAll env (segmentNames ns)

/-- The publisher's eight shared-memory handles (`None` once released),
as held across `unlink_shared_memory`. -/
structure PubHandles where
  rgbLeft : Option String
  rgbRight : Option String
  rgbShape : Option String
  timestamp : Option String
  intrinsics : Option String
  fps : Option String
  writeLock : Option String
  readLock : Option String
deriving DecidableEq, Repr

/-- The names a single `if shm is not None: shm.close(); shm.unlink()`
block unlinks. -/
def fieldUnlinkNames (f : Option String) : List String :=
  match f with
  | some n => [n]
  | none => []

/-- `ZedPublisher.unlink_shared_memory`: for each of the eight handles in
declaration order, if it is not `None`, close it, unlink its segment and
set the handle to `None`.  Returns the final handle state and the list of
segment names unlinked by this call. -/
def unlinkSharedMemory (h : PubHandles) : PubHandles × List String :=
  (⟨none, none, none, none, none, none, none, none⟩,
    fieldUnlinkNames h.rgbLeft ++ fieldUnlinkNames h.rgbRight ++
    fieldUnlinkNames h.rgbShape ++ fieldUnlinkNames h.timestamp ++
    fieldUnlinkNames h.intrinsics ++ fieldUnlinkNames h.fps ++
    fieldUnlinkNames h.writeLock ++ fieldUnlinkNames h.readLock)

/-- The handle state after `ZedPublisher._setup` allocated all eight
segments for a namespace. -/
def setupHandles (ns : String) : PubHandles :=
  ⟨some (ns ++ "_rgb_left"), some (ns ++ "_rgb_right"),
   some (ns ++ "_rgb_shape"), some (ns ++ "_timestamp"),
   some (ns ++ "_intrinsics"), some (ns ++ "_fps"),
   some (ns ++ "_write_lock"), some (ns ++ "_read_lock")⟩

/-- How `ZedPublisher.run` leaves its `try` block: the shutdown event was
observed (normal stop), or an exception escaped the capture loop (caught
by the `except Exception` clause, which logs and does not re-raise). -/
inductive LoopExit where
  | shutdown
  | captureError
deriving DecidableEq, Repr

/-- The tail of `ZedPublisher.run` on either exit: the `finally` clause
runs `unlink_shared_memory`, and the statement after the `try` statement
(line 199) runs it a second time.  Both exit reasons execute the same
cleanup. -/
def runExitCleanup (h : PubHandles) (e : LoopExit) : PubHandles × List String :=
  match e with
  | LoopExit.shutdown =>
    let p1 := unlinkSharedMemory h
    let p2 := unlinkSharedMemory p1.1
    (p2.1, p1.2 ++ p2.2)
  | LoopExit.captureError =>
    let p1 := unlinkSharedMemory h
    let p2 := unlinkSharedMemory p1.1
    (p2.1, p1.2 ++ p2.2)

/-! Concrete example states used by witnesses and counterexamples. -/

/-- A concrete freshly created channel (1x1 RGB sample, zero intrinsics,
30 fps, creation clock 0). -/
def exChannel : Channel :=
  createChannel [0, 0, 0] [1, 1, 3] (List.replicate 9 0) 30 0

/-- A concrete first frame input (clock 1). -/
def exInput : FrameInput :=
  { left := [1, 2, 3], right := [4, 5, 6], clock := 1 }

/-- A concrete second frame input (clock 3). -/
def exInput2 : FrameInput :=
  { left := [7, 8, 9], right := [10, 11, 12], clock := 3 }

/-- The channel after publishing `exInput` into `exChannel`. -/
def chanA : Channel := publishIter exChannel exInput

/-- A receiver attached to `chanA` at wall clock 2. -/
def recvA : Receiver := attachReceiver chanA 2

/-- The first completed read on `recvA`. -/
def readA : Option (Receiver × Channel) := retrieve recvA chanA

/-- The channel after a second publish (`exInput2`), following the first
read. -/
def chanB : Channel :=
  publishIter ((readA.getD (recvA, chanA)).2) exInput2

/-- The second completed read, on the same receiver. -/
def readB : Option (Receiver × Channel) :=
  retrieve ((readA.getD (recvA, chanA)).1) chanB

/-! Helper lemmas. -/

/-- The write section leaves `write_lock` cleared. -/
theorem publishIter_writeLock (c : Channel) (inp : FrameInput) :
    (publishIter c inp).writeLock = false := rfl

/-- The write section leaves the timestamp segment holding the clock value
read at line 191. -/
theorem publishIter_timestamp (c : Channel) (inp : FrameInput) :
    (publishIter c inp).timestamp = inp.clock := rfl

/-- When `write_lock` is clear the admission spin passes immediately. -/
theorem writerMustWait_of_writeLock_false (c : Channel)
    (h : c.writeLock = false) : writerMustWait c = false := by
  simp [writerMustWait, h]

/-- Characterisation of the publisher loop when started with `write_lock`
clear: every iteration is admitted, and the values written to the
timestamp segment are exactly the clock readings of the schedule. -/
theorem runLoop_spec (inps : List FrameInput) : ∀ c : Channel,
    c.writeLock = false →
    runLoop c inps = some (inps.foldl publishIter c, inps.map FrameInput.clock) := by
  induction inps with
  | nil => intro c _; rfl
  | cons inp rest ih =>
    intro c h
    have hw : writerMustWait c = false := writerMustWait_of_writeLock_false c h
    have hrec := ih (publishIter c inp) (publishIter_writeLock c inp)
    simp [runLoop, publishIterG, hw, hrec, publishIter_timestamp]

/-- A read against a channel whose `write_lock` is clear completes, fills
the receiver's private buffers from the pixel segments, and restores the
`read_lock` counter. -/
theorem retrieve_eq_of_writeLock_false (r : Receiver) (c : Channel)
    (h : c.writeLock = false) :
    retrieve r c =
      some ({ r with leftBuffer := c.rgbLeft, rightBuffer := c.rgbRight },
            { c with readLock := c.readLock + 1 - 1 }) := by
  unfold retrieve
  rw [if_neg (by simp [h])]

/-- Result of `openAll`: success means every listed segment exists. -/
theorem openAll_ok_iff (env : String → Bool) (l : List String) :
    openAll env l = Except.ok () ↔ ∀ n ∈ l, env n = true := by
  induction l with
  | nil => simp [openAll]
  | cons n rest ih =>
    by_cases hn : env n
    · simp [openAll, openSegment, hn, ih]
    · simp [openAll, openSegment, hn]

/-- Result of `openAll`: the not-found error means some listed segment is
missing. -/
theorem openAll_error_iff (env : String → Bool) (l : List String) :
    openAll env l = Except.error AttachError.channelNotFound ↔
      ∃ n ∈ l, env n = false := by
  induction l with
  | nil => simp [openAll]
  | cons n rest ih =>
    by_cases hn : env n
    · simp [openAll, openSegment, hn, ih]
    · simp [openAll, openSegment, hn]

/-! Theorems for the claims. -/

/-- C1: the write-admission spin of `ZedPublisher.run` waits exactly while
`reader-count > 0` and `write-flag` hold together (so it does not wait
when only one of the two holds), and the first action after admission is
setting the write flag. -/
theorem write_admission_requires_both (c : Channel) (inp : FrameInput) :
    (writerMustWait c = true ↔ (0 < c.readLock ∧ c.writeLock = true)) ∧
    (publishStates c inp).head? = some { c with writeLock := true } := by
  constructor
  · simp [writerMustWait]
  · rfl

/-- C2: within one publisher iteration the timestamp segment is written
strictly after both pixel-buffer copies: in every intermediate state of
the write section, if the timestamp already holds the iteration's new
value (which differs from the previous one) then both buffers already
hold the iteration's images. -/
theorem timestamp_after_buffer_copies (c : Channel) (inp : FrameInput)
    (h : inp.clock ≠ c.timestamp) :
    ∀ s ∈ publishStates c inp, s.timestamp = inp.clock →
      s.rgbLeft = inp.left ∧ s.rgbRight = inp.right := by
  intro s hs hts
  simp only [publishStates, List.mem_cons, List.not_mem_nil, or_false] at hs
  rcases hs with rfl | rfl | rfl | rfl | rfl
  · exact absurd hts.symm h
  · exact absurd hts.symm h
  · exact absurd hts.symm h
  · exact ⟨rfl, rfl⟩
  · exact ⟨rfl, rfl⟩

/-- Witness for C2 at a concrete channel and input. -/
theorem timestamp_after_buffer_copies_witness :
    exInput.clock ≠ exChannel.timestamp ∧
    ∀ s ∈ publishStates exChannel exInput, s.timestamp = exInput.clock →
      s.rgbLeft = exInput.left ∧ s.rgbRight = exInput.right :=
  ⟨by decide, timestamp_after_buffer_copies exChannel exInput (by decide)⟩

/-- C4: a completed `_retrieve_rgb_image_as_int` call increments
`read_lock` by one before the copies (the first intermediate channel
state), decrements it after them, and so leaves the counter exactly at
its pre-copy value. -/
theorem reader_count_restored (r : Receiver) (c : Channel)
    (r2 : Receiver) (c2 : Channel) (h : retrieve r c = some (r2, c2)) :
    retrieveChannelStates r c = [{ c with readLock := c.readLock + 1 }, c2] ∧
    c2.readLock = c.readLock := by
  unfold retrieve at h
  split at h
  · exact absurd h (by simp)
  · rename_i hw
    simp only [Option.some.injEq, Prod.mk.injEq] at h
    obtain ⟨h1, h2⟩ := h
    subst h2
    refine ⟨?_, by simp⟩
    unfold retrieveChannelStates
    rw [if_neg hw]

/-- Witness for C4 at a concrete read. -/
theorem reader_count_restored_witness :
    ∃ r2 c2, retrieve recvA chanA = some (r2, c2) ∧
      retrieveChannelStates recvA chanA =
        [{ chanA with readLock := chanA.readLock + 1 }, c2] ∧
      c2.readLock = chanA.readLock := by
  refine ⟨_, _, rfl, reader_count_restored recvA chanA _ _ rfl⟩

/-- Witness for C1 at a concrete channel and input. -/
theorem write_admission_requires_both_witness :
    (writerMustWait exChannel = true ↔
      (0 < exChannel.readLock ∧ exChannel.writeLock = true)) ∧
    (publishStates exChannel exInput).head? =
      some { exChannel with writeLock := true } :=
  write_admission_requires_both exChannel exInput

/-- C3: over any schedule of publisher iterations started with the write
flag clear, the loop publishes every frame and the sequence of values it
writes to the timestamp segment is strictly increasing, provided the
wall-clock readings taken at line 191 are strictly increasing. -/
theorem publisher_timestamps_strictly_increasing (c : Channel)
    (inps : List FrameInput) (hw : c.writeLock = false)
    (hclock : List.Chain' (· < ·) (inps.map FrameInput.clock)) :
    ∃ cf ts, runLoop c inps = some (cf, ts) ∧ List.Chain' (· < ·) ts :=
  ⟨_, _, runLoop_spec inps c hw, hclock⟩

/-- Witness for C3 on a concrete two-iteration schedule. -/
theorem publisher_timestamps_strictly_increasing_witness :
    exChannel.writeLock = false ∧
    List.Chain' (· < ·) ([exInput, exInput2].map FrameInput.clock) ∧
    ∃ cf ts, runLoop exChannel [exInput, exInput2] = some (cf, ts) ∧
      List.Chain' (· < ·) ts :=
  ⟨rfl, by norm_num [exInput, exInput2, List.chain'_cons],
    publisher_timestamps_strictly_increasing exChannel [exInput, exInput2]
      rfl (by norm_num [exInput, exInput2, List.chain'_cons])⟩

/-- Counterexample to C5: the value returned by the first completed read
holds the first published frame, but after a second publish and a second
`readFrame` on the same receiver, the same returned object (the
receiver's preallocated buffers, returned by reference at line 369) holds
the second frame — a later `readFrame` call does change the contents of
the previously returned snapshot. -/
theorem snapshot_mutated_by_later_read_cex :
    Option.map (fun p => snapshot p.1) readA = some ([1, 2, 3], [4, 5, 6]) ∧
    Option.map (fun p => snapshot p.1) readB = some ([7, 8, 9], [10, 11, 12]) ∧
    (([7, 8, 9], [10, 11, 12]) : List Nat × List Nat) ≠ ([1, 2, 3], [4, 5, 6]) :=
  ⟨rfl, rfl, by decide⟩

/-- C5 (amended): the snapshot is a copy decoupled from the channel — at
return it holds the pixel segments' contents at read time, and later
publisher writes to the channel never reach it — but it aliases the
receiver's preallocated buffers, so a later `readFrame` on the same
receiver overwrites it with the newly published frame. -/
theorem snapshot_decoupled_from_channel_but_aliases_buffer
    (r : Receiver) (c : Channel) (h : c.writeLock = false) :
    ∃ r2 c2, retrieve r c = some (r2, c2) ∧
      snapshot r2 = (c.rgbLeft, c.rgbRight) ∧
      ∀ inp : FrameInput, ∃ r3 c3,
        retrieve r2 (publishIter c2 inp) = some (r3, c3) ∧
        snapshot r3 = (inp.left, inp.right) := by
  refine ⟨_, _, retrieve_eq_of_writeLock_false r c h, rfl, ?_⟩
  intro inp
  exact ⟨_, _, retrieve_eq_of_writeLock_false _ _ (publishIter_writeLock _ _), rfl⟩

/-- Witness for the amended C5 at a concrete channel and receiver. -/
theorem snapshot_decoupled_from_channel_but_aliases_buffer_witness :
    chanA.writeLock = false ∧
    ∃ r2 c2, retrieve recvA chanA = some (r2, c2) ∧
      snapshot r2 = (chanA.rgbLeft, chanA.rgbRight) ∧
      ∀ inp : FrameInput, ∃ r3 c3,
        retrieve r2 (publishIter c2 inp) = some (r3, c3) ∧
        snapshot r3 = (inp.left, inp.right) :=
  ⟨rfl, snapshot_decoupled_from_channel_but_aliases_buffer recvA chanA rfl⟩

/-- C6: attach opens the eight named segments and succeeds exactly when
all of them exist; it fails with the not-found error exactly when at
least one is missing.  Each name is looked up once — the attach path has
no internal wait-and-retry. -/
theorem attach_fails_iff_any_missing (env : String → Bool) (ns : String) :
    (attachSegments env ns = Except.ok () ↔
      ∀ n ∈ segmentNames ns, env n = true) ∧
    (attachSegments env ns = Except.error AttachError.channelNotFound ↔
      ∃ n ∈ segmentNames ns, env n = false) :=
  ⟨openAll_ok_iff env (segmentNames ns), openAll_error_iff env (segmentNames ns)⟩

/-- C7: on either exit reason of the publisher loop — shutdown observed,
or a failure escaping the capture loop — the cleanup path unlinks exactly
the eight segments of the namespace and leaves every handle released. -/
theorem cleanup_on_every_exit_path (ns : String) (e : LoopExit) :
    (runExitCleanup (setupHandles ns) e).2 = segmentNames ns ∧
    (runExitCleanup (setupHandles ns) e).1 =
      ⟨none, none, none, none, none, none, none, none⟩ := by
  cases e <;> exact ⟨rfl, rfl⟩

/-- C8: round-trip — after creating a channel and publishing one frame
pair, a receiver attaching afterwards reads back exactly the published
left and right images, and the intrinsics segment still holds the matrix
written at creation. -/
theorem round_trip (sample : List Nat) (shape : List Int) (intr : List Rat)
    (f t0 ta : Rat) (inp : FrameInput)
    (hl : inp.left.length = sample.length)
    (hr : inp.right.length = sample.length) :
    ∃ r2 c2,
      retrieve
        (attachReceiver (publishIter (createChannel sample shape intr f t0) inp) ta)
        (publishIter (createChannel sample shape intr f t0) inp) = some (r2, c2) ∧
      snapshot r2 = (inp.left, inp.right) ∧
      intrinsicsMatrix (publishIter (createChannel sample shape intr f t0) inp) = intr :=
  ⟨_, _, retrieve_eq_of_writeLock_false _ _ (publishIter_writeLock _ _), rfl, rfl⟩

/-- Witness for C8 at a concrete sample and frame. -/
theorem round_trip_witness :
    exInput.left.length = ([0, 0, 0] : List Nat).length ∧
    exInput.right.length = ([0, 0, 0] : List Nat).length ∧
    ∃ r2 c2,
      retrieve
        (attachReceiver
          (publishIter (createChannel [0, 0, 0] [1, 1, 3] (List.replicate 9 0) 30 0) exInput) 2)
        (publishIter (createChannel [0, 0, 0] [1, 1, 3] (List.replicate 9 0) 30 0) exInput) =
        some (r2, c2) ∧
      snapshot r2 = (exInput.left, exInput.right) ∧
      intrinsicsMatrix
        (publishIter (createChannel [0, 0, 0] [1, 1, 3] (List.replicate 9 0) 30 0) exInput) =
        List.replicate 9 0 :=
  ⟨by decide, by decide,
    round_trip [0, 0, 0] [1, 1, 3] (List.replicate 9 0) 30 0 2 exInput
      (by decide) (by decide)⟩

/-- C9: no receiver operation writes any channel segment other than
`read_lock`: every intermediate channel state of a completed read agrees
with the input channel on the pixel buffers, shape, timestamp,
intrinsics, fps and write flag; the frame-freshness poll and detach leave
the channel untouched (the remaining receiver operations are pure reads
of the channel by construction). -/
theorem receiver_writes_only_reader_count (r : Receiver) (c : Channel) :
    (∀ s ∈ retrieveChannelStates r c,
      s.rgbLeft = c.rgbLeft ∧ s.rgbRight = c.rgbRight ∧
      s.rgbShape = c.rgbShape ∧ s.timestamp = c.timestamp ∧
      s.intrinsics = c.intrinsics ∧ s.fps = c.fps ∧
      s.writeLock = c.writeLock) ∧
    (∀ p ∈ grabImages r c, p.2 = c) ∧
    (closeSharedMemory r c).2 = c := by
  refine ⟨?_, ?_, rfl⟩
  · intro s hs
    unfold retrieveChannelStates at hs
    split at hs
    · simp at hs
    · simp only [List.mem_cons, List.not_mem_nil, or_false] at hs
      rcases hs with rfl | rfl <;> exact ⟨rfl, rfl, rfl, rfl, rfl, rfl, rfl⟩
  · intro p hp
    unfold grabImages at hp
    split at hp
    · simp only [Option.mem_def, Option.some.injEq] at hp
      subst hp
      rfl
    · simp at hp

/-- Witness for C9 at a concrete receiver and channel. -/
theorem receiver_writes_only_reader_count_witness :
    (∀ s ∈ retrieveChannelStates recvA chanA,
      s.rgbLeft = chanA.rgbLeft ∧ s.rgbRight = chanA.rgbRight ∧
      s.rgbShape = chanA.rgbShape ∧ s.timestamp = chanA.timestamp ∧
      s.intrinsics = chanA.intrinsics ∧ s.fps = chanA.fps ∧
      s.writeLock = chanA.writeLock) ∧
    (∀ p ∈ grabImages recvA chanA, p.2 = chanA) ∧
    (closeSharedMemory recvA chanA).2 = chanA :=
  receiver_writes_only_reader_count recvA chanA

/-- C10: the freshness baseline of a new receiver is its own attach-time
wall clock, not the channel's current timestamp; the first
wait-for-next-frame completes exactly when the channel timestamp strictly
exceeds that attach time, so a frame published before attach (timestamp
at most the attach time) never satisfies the first wait. -/
theorem freshness_baseline_attach_clock (c : Channel) (t0 : Rat)
    (hstale : c.timestamp ≤ t0) :
    (attachReceiver c t0).previousTimestamp = t0 ∧
    (∀ c2 : Channel,
      (grabImages (attachReceiver c t0) c2).isSome = true ↔ t0 < c2.timestamp) ∧
    grabImages (attachReceiver c t0) c = none := by
  refine ⟨rfl, ?_, ?_⟩
  · intro c2
    unfold grabImages
    by_cases h2 : (attachReceiver c t0).previousTimestamp < c2.timestamp
    · rw [if_pos h2]
      simpa using h2
    · rw [if_neg h2]
      simpa using h2
  · unfold grabImages
    rw [if_neg]
    exact not_lt.mpr hstale

/-- Witness for C10: a receiver attaching at clock 2 to a channel whose
current timestamp is 1 (so baseline 2 differs from the channel
timestamp), for which the first wait does not complete. -/
theorem freshness_baseline_attach_clock_witness :
    chanA.timestamp ≤ 2 ∧
    ((attachReceiver chanA 2).previousTimestamp = 2 ∧
     (∀ c2 : Channel,
       (grabImages (attachReceiver chanA 2) c2).isSome = true ↔ 2 < c2.timestamp) ∧
     grabImages (attachReceiver chanA 2) chanA = none) :=
  ⟨by decide, freshness_baseline_attach_clock chanA 2 (by decide)⟩

end RgbdRecorder
